import Mathlib

/-!
Shallow embedding of the Rent-to-SA profitability API (src/main.py).

Modelling conventions, chosen once and used throughout:
* Python dicts become association lists (`List (k × v)`) which preserve
  insertion order, matching CPython dict iteration order.
* Python floats become exact rationals.  The file carries its own
  canonical-form rational type `Q` (reduced numerator/denominator, positive
  denominator) so that every pipeline value is computable by plain kernel
  reduction and value equality coincides with structural equality.
  `round` is modelled as round-half-to-even (CPython's documented tie
  rule); `round(x, 2)` rounds `x * 100` the same way.  Binary floating
  point representation error is not modelled.
* Python strings are Lean `String`s; `.upper() / .lower() / .strip()` are
  modelled on ASCII, which covers every string in the configuration tables
  and the specification scenarios.
* JSON request values are modelled by `JVal` (string / integer / null, the
  shapes the endpoint's validation distinguishes).  A request field that is
  absent is `Option.none` at the `Req` level.
* `calculate_endpoint` returns `Option Response`; `none` models an
  unhandled Python exception (only reachable when `property_type` is a
  truthy non-string, where `property_type.strip()` would raise).
-/

set_option maxRecDepth 4000

deriving instance DecidableEq for Except

namespace RentToSA

/-! ## Character and string helpers (ASCII models of Python str methods) -/

def isAsciiAlpha (c : Char) : Bool :=
  (65 ≤ c.toNat && c.toNat ≤ 90) || (97 ≤ c.toNat && c.toNat ≤ 122)

def isAsciiDigit (c : Char) : Bool :=
  48 ≤ c.toNat && c.toNat ≤ 57

def upChar (c : Char) : Char :=
  if 97 ≤ c.toNat && c.toNat ≤ 122 then Char.ofNat (c.toNat - 32) else c

def lowChar (c : Char) : Char :=
  if 65 ≤ c.toNat && c.toNat ≤ 90 then Char.ofNat (c.toNat + 32) else c

def isPySpace (c : Char) : Bool :=
  c.toNat = 32 || c.toNat = 9 || c.toNat = 10 || c.toNat = 13 || c.toNat = 11 || c.toNat = 12

/-- Model of `str.upper()` (ASCII range). -/
def pyUpper (s : String) : String := ⟨s.data.map upChar⟩

/-- Model of `str.lower()` (ASCII range). -/
def pyLower (s : String) : String := ⟨s.data.map lowChar⟩

/-- Model of `str.strip()` (ASCII whitespace). -/
def pyStrip (s : String) : String :=
  ⟨((s.data.dropWhile isPySpace).reverse.dropWhile isPySpace).reverse⟩

def isPrefixL : List Char → List Char → Bool
  | [], _ => true
  | _ :: _, [] => false
  | a :: as, b :: bs => a == b && isPrefixL as bs

def isInfixL (nd : List Char) : List Char → Bool
  | [] => nd.isEmpty
  | c :: rest => isPrefixL nd (c :: rest) || isInfixL nd rest

/-- Model of Python's `needle in hay` substring test. -/
def containsStr (hay needle : String) : Bool := isInfixL needle.data hay.data

/-- Ordered association-list lookup with `Int` keys (Python dict access). -/
def alookup {α : Type} (k : Int) : List (Int × α) → Option α
  | [] => none
  | (k2, v) :: rest => if k2 = k then some v else alookup k rest

/-- Ordered association-list lookup with `String` keys (Python dict access). -/
def slookup {α : Type} (k : String) : List (String × α) → Option α
  | [] => none
  | (k2, v) :: rest => if k2 = k then some v else slookup k rest

/-- `[k for k in keys if k <= bedrooms]`. -/
def filterLE (b : Int) : List Int → List Int
  | [] => []
  | k :: rest => if k ≤ b then k :: filterLE b rest else filterLE b rest

/-- Python `max` over a list of ints (`none` on the empty list). -/
def listMax : List Int → Option Int
  | [] => none
  | k :: rest =>
    match listMax rest with
    | none => some k
    | some m => some (if k ≤ m then m else k)

def insertSorted (x : Int) : List Int → List Int
  | [] => [x]
  | y :: rest => if x ≤ y then x :: y :: rest else y :: insertSorted x rest

/-- Python `sorted` over a list of ints. -/
def sortInts : List Int → List Int
  | [] => []
  | x :: rest => insertSorted x (sortInts rest)

/-- Python string comparison: lexicographic by code point. -/
def lexLe : List Char → List Char → Bool
  | [], _ => true
  | _ :: _, [] => false
  | a :: as, b :: bs =>
    if a.toNat < b.toNat then true
    else if b.toNat < a.toNat then false
    else lexLe as bs

def insertSortedStr (x : String) : List String → List String
  | [] => [x]
  | y :: rest => if lexLe x.data y.data then x :: y :: rest else y :: insertSortedStr x rest

/-- Python `sorted` over a list of strings. -/
def sortStrs : List String → List String
  | [] => []
  | x :: rest => insertSortedStr x (sortStrs rest)

/-- Python `sep.join(items)`. -/
def joinSep (sep : String) : List String → String
  | [] => ""
  | [x] => x
  | x :: rest => x ++ sep ++ joinSep sep rest

/-- Value of a digit string (most significant digit first). -/
def digitsVal (cs : List Char) : Nat :=
  cs.foldl (fun a c => a * 10 + (c.toNat - 48)) 0

def digitsAux : Nat → Nat → List Char
  | 0, _ => []
  | fuel + 1, n =>
    if n = 0 then [] else digitsAux fuel (n / 10) ++ [Char.ofNat (48 + n % 10)]

/-- Decimal rendering of a natural number (Python `str(n)` for `n : Nat`). -/
def natToStr (n : Nat) : String :=
  if n = 0 then "0" else ⟨digitsAux (n + 1) n⟩

/-- Decimal rendering of an integer (Python `str(n)` for `n : int`). -/
def intToStr (i : Int) : String :=
  if i < 0 then "-" ++ natToStr i.natAbs else natToStr i.natAbs

/-! ## Exact rationals in canonical form -/

/-- A rational in canonical form: `num` and `den` coprime, `den` positive.
Every constructor below normalizes, so value equality is structural
equality (`deriving DecidableEq`). -/
structure Q where
  num : Int
  den : Nat
deriving DecidableEq

/-- Normalize `n / d` (canonical sign and reduced).  `d = 0` never occurs
in the pipeline; it is mapped to the junk value `⟨0, 0⟩`. -/
def qmk (n d : Int) : Q :=
  if d = 0 then ⟨0, 0⟩
  else
    let nn := if d < 0 then -n else n
    let dd := d.natAbs
    let g := nn.natAbs.gcd dd
    ⟨nn / (g : Int), dd / g⟩

def qofInt (n : Int) : Q := ⟨n, 1⟩

instance : IntCast Q := ⟨qofInt⟩

instance : NatCast Q := ⟨fun n => ⟨n, 1⟩⟩

instance (n : Nat) : OfNat Q n := ⟨⟨n, 1⟩⟩

/-- Decimal literals such as `1.6` denote `16 / 10`. -/
instance : OfScientific Q :=
  ⟨fun m b e => if b then qmk m ((10 : Int) ^ e) else qofInt ((m : Int) * (10 : Int) ^ e)⟩

def qadd (a b : Q) : Q := qmk (a.num * b.den + b.num * a.den) ((a.den : Int) * b.den)

def qsub (a b : Q) : Q := qmk (a.num * b.den - b.num * a.den) ((a.den : Int) * b.den)

def qmul (a b : Q) : Q := qmk (a.num * b.num) ((a.den : Int) * b.den)

def qdiv (a b : Q) : Q := qmk (a.num * b.den) ((a.den : Int) * b.num)

def qneg (a : Q) : Q := ⟨-a.num, a.den⟩

def qpow (a : Q) : Nat → Q
  | 0 => 1
  | n + 1 => qmul a (qpow a n)

instance : Add Q := ⟨qadd⟩
instance : Sub Q := ⟨qsub⟩
instance : Mul Q := ⟨qmul⟩
instance : Div Q := ⟨qdiv⟩
instance : Neg Q := ⟨qneg⟩
instance : Pow Q Nat := ⟨qpow⟩

/-- `a < b`, sound because canonical denominators are nonnegative. -/
def qlt (a b : Q) : Bool := a.num * b.den < b.num * a.den

/-- `⌊a⌋` on a canonical rational. -/
def qfloor (a : Q) : Int := Int.fdiv a.num a.den

/-- CPython `round` to the nearest integer, ties to even. -/
def roundHalfEven (q : Q) : Int :=
  let f := qfloor q
  let frac := q - qofInt f
  if qlt frac (qmk 1 2) then f
  else if qlt (qmk 1 2) frac then f + 1
  else if f % 2 = 0 then f else f + 1

/-- CPython `round(x, 2)`. -/
def round2 (q : Q) : Q := qofInt (roundHalfEven (q * 100)) / 100

/-! ## Static configuration tables (src/main.py lines 40-75) -/

def BASE_RATE_MAP : List (String × List (Int × Int)) :=
  [("house", [(1, 60), (2, 85), (3, 110), (4, 140), (5, 170)]),
   ("apartment", [(1, 55), (2, 75), (3, 100), (4, 125), (5, 150)]),
   ("bungalow", [(1, 50), (2, 70), (3, 95), (4, 120), (5, 145)]),
   ("studio", [(1, 45), (2, 65), (3, 85), (4, 105), (5, 125)])]

def CITY_MULTIPLIERS : List (String × Q) :=
  [("LONDON", 1.6), ("MANCHESTER", 1.3), ("LIVERPOOL", 1.2), ("BIRMINGHAM", 1.2),
   ("LEEDS", 1.1), ("GLASGOW", 1.1), ("EDINBURGH", 1.3), ("BRISTOL", 1.2),
   ("CARDIFF", 1.1), ("SHEFFIELD", 1.0)]

def DEFAULT_MULTIPLIER : Q := 1.0

def LEGACY_NIGHTLY_RATE_MAP : List (String × Int) :=
  [("L4-3", 130), ("L4-4", 160), ("L5-3", 130), ("L5-4", 160), ("L6-3", 120), ("L6-4", 150)]

/-! ## Nightly rate estimation (src/main.py lines 78-141) -/

/-- Lines 114-124: base rate via exact key, else nearest lower key, else
the smallest configured key. -/
def resolve_base (base_for_type : List (Int × Int)) (bedrooms : Int) : Int :=
  match alookup bedrooms base_for_type with
  | some r => r
  | none =>
    let sorted_keys := sortInts (base_for_type.map Prod.fst)
    match listMax (filterLE bedrooms sorted_keys) with
    | some mk => (alookup mk base_for_type).getD 0
    | none => (alookup (sorted_keys.headD 0) base_for_type).getD 0

/-- Lines 127-138: the first configured city occurring in the uppercased
address wins; otherwise the default multiplier. -/
def firstMult (upper_address : String) : List (String × Q) → Q
  | [] => DEFAULT_MULTIPLIER
  | (city, factor) :: rest =>
    if containsStr upper_address city then factor else firstMult upper_address rest

/-- Line 108: `(property_type or "").strip().lower()` for a string input. -/
def canonType (property_type : String) : String := pyLower (pyStrip property_type)

/-- Lines 78-141.  `if not base_for_type` is falsy for a missing key and
for an empty per-type dict, hence the explicit empty-list guard. -/
def fetch_average_nightly_rate (address property_type : String) (bedrooms : Int) : Option Int :=
  match slookup (canonType property_type) BASE_RATE_MAP with
  | none => none
  | some base_for_type =>
    if base_for_type = [] then none
    else
      let base_rate := resolve_base base_for_type bedrooms
      let multiplier := firstMult (pyUpper address) CITY_MULTIPLIERS
      some (roundHalfEven ((base_rate : Q) * multiplier))

/-! ## Rent parsing (src/main.py lines 144-166) -/

/-- Line 158: `re.sub(r"[^0-9.]+", "", price_str)`. -/
def stripNonNumeric (s : String) : List Char :=
  s.data.filter (fun c => isAsciiDigit c || c == '.')

def dotCount (cs : List Char) : Nat := (cs.filter (fun c => c == '.')).length

def hasDigit (cs : List Char) : Bool := cs.any isAsciiDigit

/-- CPython `float()` restricted to strings of digits and dots: accepted
iff there is at most one dot and at least one digit; the value is the
integer part plus the fractional part. -/
def pyFloatOfCleaned (cs : List Char) : Option Q :=
  if dotCount cs ≤ 1 ∧ hasDigit cs = true then
    let intPart := cs.takeWhile (fun c => !(c == '.'))
    let fracPart := (cs.dropWhile (fun c => !(c == '.'))).drop 1
    some ((digitsVal intPart : Q) + (digitsVal fracPart : Q) / (10 : Q) ^ fracPart.length)
  else none

/-- Lines 144-166. -/
def parse_rent (price_str : String) : Except String Q :=
  let cleaned := stripNonNumeric price_str
  if cleaned.isEmpty then
    .error ("Could not parse rent from price string '" ++ price_str ++ "'")
  else
    match pyFloatOfCleaned cleaned with
    | some v => .ok v
    | none => .error ("Invalid numeric value in price string '" ++ price_str ++ "'")

/-! ## Postcode area extraction (src/main.py lines 169-185) -/

/-- Greedy alternatives of `[A-Za-z]{1,2}\d{1,2}` at one position, in
backtracking preference order: 2+2, 2+1, 1+2, 1+1. -/
def matchShape22 : List Char → Option (List Char)
  | a :: b :: c :: d :: _ =>
    if isAsciiAlpha a && isAsciiAlpha b && isAsciiDigit c && isAsciiDigit d then
      some [a, b, c, d]
    else none
  | _ => none

def matchShape21 : List Char → Option (List Char)
  | a :: b :: c :: _ =>
    if isAsciiAlpha a && isAsciiAlpha b && isAsciiDigit c then some [a, b, c] else none
  | _ => none

def matchShape12 : List Char → Option (List Char)
  | a :: b :: c :: _ =>
    if isAsciiAlpha a && isAsciiDigit b && isAsciiDigit c then some [a, b, c] else none
  | _ => none

def matchShape11 : List Char → Option (List Char)
  | a :: b :: _ =>
    if isAsciiAlpha a && isAsciiDigit b then some [a, b] else none
  | _ => none

def matchAreaAt (cs : List Char) : Option (List Char) :=
  match matchShape22 cs with
  | some m => some m
  | none =>
    match matchShape21 cs with
    | some m => some m
    | none =>
      match matchShape12 cs with
      | some m => some m
      | none => matchShape11 cs

/-- `re.search`: leftmost position at which the pattern matches. -/
def searchArea : List Char → Option (List Char)
  | [] => none
  | c :: rest =>
    match matchAreaAt (c :: rest) with
    | some m => some m
    | none => searchArea rest

/-- Lines 169-185 (`extract_prefix` in the source). -/
def extractPrefix (address : String) : Option String :=
  (searchArea address.data).map (fun m => ⟨m.map upChar⟩)

/-! ## Profits and message (src/main.py lines 188-231) -/

/-- Lines 188-211.  The dict keys are `str(int(occupancy * 100))`; the
occupancies are positive so `int` truncation is the floor. -/
def calculate_profits (nightly_rate : Int) (rent : Q) : List (String × Q) :=
  [(0.5 : Q), (0.7 : Q), (1.0 : Q)].map (fun occupancy =>
    (intToStr (qfloor (occupancy * 100)),
     round2 ((nightly_rate : Q) * 30 * occupancy - rent - 600)))

/-- Python `f"{q:.2f}"`: round half-to-even to two decimals, print with a
two-digit fraction. -/
def fmt2 (q : Q) : String :=
  let pennies := roundHalfEven (q * 100)
  let sign := if pennies < 0 then "-" else ""
  let a := pennies.natAbs
  sign ++ natToStr (a / 100) ++ "." ++ (if a % 100 < 10 then "0" else "") ++ natToStr (a % 100)

/-- Lines 214-231.  The source indexes `profits['50']` etc. and would raise
on a missing key; the pipeline always supplies all three keys, so the
`getD 0` default is never taken there. -/
def format_whatsapp_message (address : String) (bedrooms : Int) (rent : Q)
    (profits : List (String × Q)) : String :=
  address ++ ", " ++ intToStr bedrooms ++ " Bed\n\n" ++
  "Rent + Bills = £" ++ fmt2 (rent + 600) ++ "\n\n" ++
  "| Conservative Figures |\n" ++
  "£" ++ fmt2 ((slookup "50" profits).getD 0) ++ " PPM @ 50%\n" ++
  "£" ++ fmt2 ((slookup "70" profits).getD 0) ++ " PPM @ 70%\n" ++
  "£" ++ fmt2 ((slookup "100" profits).getD 0) ++ " PPM @ 100%"

/-! ## The /calculate endpoint (src/main.py lines 244-332) -/

/-- JSON values the endpoint's validation distinguishes. -/
inductive JVal where
  | jstr (s : String)
  | jint (n : Int)
  | jnull
deriving DecidableEq

/-- The JSON request body; `none` is an absent key. -/
structure Req where
  address : Option JVal
  price : Option JVal
  bedrooms : Option JVal
  property_type : Option JVal
deriving DecidableEq

/-- The endpoint outcome: a 400 client error, a 404 not-found error, or a
200 success payload `{nightly_rate, profits, message}`. -/
inductive Response where
  | clientError (msg : String)
  | notFound (msg : String)
  | success (nightly_rate : Int) (profits : List (String × Q)) (message : String)
deriving DecidableEq

def statusCode : Response → Nat
  | .clientError _ => 400
  | .notFound _ => 404
  | .success _ _ _ => 200

/-- `data.get(key)`: an absent key and a JSON null both read as `None`. -/
def pyGet : Option JVal → Option JVal
  | some JVal.jnull => none
  | v => v

/-- The check `not x or not isinstance(x, str)` passes exactly for a
present, non-empty string field. -/
def validField (v : Option JVal) : Bool :=
  match pyGet v with
  | some (JVal.jstr s) => !(s == "")
  | _ => false

/-- Continuation of the CPython integer-literal digit grammar after one
digit has been consumed: further digits, with single underscores allowed
only between digits (PEP 515). -/
def digitsUndAux : List Char → Bool
  | [] => true
  | '_' :: [] => false
  | '_' :: c :: rest => isAsciiDigit c && digitsUndAux rest
  | c :: rest => isAsciiDigit c && digitsUndAux rest

/-- CPython integer-literal digit part: nonempty, starts and ends with a
digit, single underscores permitted between digits ("1_000" is accepted,
"_1", "1_" and "1__0" are not). -/
def isPyIntDigits (cs : List Char) : Bool :=
  match cs with
  | [] => false
  | c :: rest => isAsciiDigit c && digitsUndAux rest

def digitsToNat (cs : List Char) : Option Nat :=
  if isPyIntDigits cs = true then some (digitsVal (cs.filter (fun c => !(c == '_'))))
  else none

/-- CPython `int(s)` on a string: surrounding whitespace, an optional
sign, then decimal digits with PEP 515 underscore grouping. -/
def strToInt (s : String) : Option Int :=
  match (pyStrip s).data with
  | '+' :: rest => (digitsToNat rest).map (fun n => (n : Int))
  | '-' :: rest => (digitsToNat rest).map (fun n => -(n : Int))
  | rest => (digitsToNat rest).map (fun n => (n : Int))

/-- CPython `int(x)`: succeeds on ints and integer strings, raises on
`None` and non-numeric strings. -/
def pyInt : JVal → Option Int
  | .jint n => some n
  | .jstr s => strToInt s
  | .jnull => none

/-- `(property_type or "")` followed by `.strip()`: yields a string for a
string or falsy value; a truthy non-string would raise (`none`). -/
def pyStrOrEmpty : JVal → Option String
  | .jstr s => some s
  | .jnull => some ""
  | .jint n => if n = 0 then some "" else none

/-- Lines 297-309: the 404 message enumerating `sorted(BASE_RATE_MAP)`. -/
def NOT_FOUND_MSG : String :=
  "Unable to determine nightly rate for the provided inputs." ++
  " Please ensure the property type is one of: " ++
  joinSep ", " (sortStrs (BASE_RATE_MAP.map Prod.fst)) ++ "."

/-- Lines 290-295: legacy fallback lookup keyed `"<area>-<bedrooms>"`. -/
def legacy_lookup (address : String) (bedrooms : Int) : Option Int :=
  match extractPrefix address with
  | some area => slookup (area ++ "-" ++ intToStr bedrooms) LEGACY_NIGHTLY_RATE_MAP
  | none => none

/-- Lines 244-332.  `none` models an unhandled exception (truthy
non-string `property_type`); the webhook side effect does not alter the
response and is not modelled. -/
def calculate_endpoint (req : Req) : Option Response :=
  match pyGet req.address with
  | some (JVal.jstr a) =>
    if a = "" then some (.clientError "Invalid or missing 'address'.")
    else
      match pyGet req.price with
      | some (JVal.jstr p) =>
        if p = "" then some (.clientError "Invalid or missing 'price'.")
        else
          match pyGet req.bedrooms with
          | none => some (.clientError "Missing 'bedrooms'.")
          | some bv =>
            match pyInt bv with
            | none => some (.clientError "'bedrooms' must be an integer.")
            | some b =>
              match parse_rent p with
              | .error e => some (.clientError e)
              | .ok rent =>
                match pyStrOrEmpty (req.property_type.getD (JVal.jstr "house")) with
                | none => none
                | some ptStr =>
                  let finish := fun (r : Int) =>
                    let profits := calculate_profits r rent
                    some (Response.success r profits
                      (format_whatsapp_message a b rent profits))
                  match fetch_average_nightly_rate a ptStr b with
                  | some r => finish r
                  | none =>
                    match legacy_lookup a b with
                    | some r => finish r
                    | none => some (.notFound NOT_FOUND_MSG)
      | _ => some (.clientError "Invalid or missing 'price'.")
  | _ => some (.clientError "Invalid or missing 'address'.")

/-! ## Helper lemmas -/

lemma base_map_cases (pt : String) (m : List (Int × Int))
    (h : slookup pt BASE_RATE_MAP = some m) :
    m = [(1, 60), (2, 85), (3, 110), (4, 140), (5, 170)] ∨
    m = [(1, 55), (2, 75), (3, 100), (4, 125), (5, 150)] ∨
    m = [(1, 50), (2, 70), (3, 95), (4, 120), (5, 145)] ∨
    m = [(1, 45), (2, 65), (3, 85), (4, 105), (5, 125)] := by
  simp only [BASE_RATE_MAP, slookup] at h
  split_ifs at h <;> simp_all

lemma resolve_base_exact (m : List (Int × Int)) (b v : Int) (h : alookup b m = some v) :
    resolve_base m b = v := by
  unfold resolve_base
  rw [h]

lemma resolve_base_high (v1 v2 v3 v4 v5 b : Int) (h : 5 < b) :
    resolve_base [(1, v1), (2, v2), (3, v3), (4, v4), (5, v5)] b = v5 := by
  have h1 : ¬((1 : Int) = b) := by omega
  have h2 : ¬((2 : Int) = b) := by omega
  have h3 : ¬((3 : Int) = b) := by omega
  have h4 : ¬((4 : Int) = b) := by omega
  have h5 : ¬((5 : Int) = b) := by omega
  have g1 : (1 : Int) ≤ b := by omega
  have g2 : (2 : Int) ≤ b := by omega
  have g3 : (3 : Int) ≤ b := by omega
  have g4 : (4 : Int) ≤ b := by omega
  have g5 : (5 : Int) ≤ b := by omega
  simp [resolve_base, alookup, sortInts, insertSorted, filterLE, listMax,
    h1, h2, h3, h4, h5, g1, g2, g3, g4, g5]

lemma resolve_base_low (v1 v2 v3 v4 v5 b : Int) (h : b < 1) :
    resolve_base [(1, v1), (2, v2), (3, v3), (4, v4), (5, v5)] b = v1 := by
  have h1 : ¬((1 : Int) = b) := by omega
  have h2 : ¬((2 : Int) = b) := by omega
  have h3 : ¬((3 : Int) = b) := by omega
  have h4 : ¬((4 : Int) = b) := by omega
  have h5 : ¬((5 : Int) = b) := by omega
  have g1 : ¬((1 : Int) ≤ b) := by omega
  have g2 : ¬((2 : Int) ≤ b) := by omega
  have g3 : ¬((3 : Int) ≤ b) := by omega
  have g4 : ¬((4 : Int) ≤ b) := by omega
  have g5 : ¬((5 : Int) ≤ b) := by omega
  simp [resolve_base, alookup, sortInts, insertSorted, filterLE, listMax,
    h1, h2, h3, h4, h5, g1, g2, g3, g4, g5]

lemma resolve_base_vals (v1 v2 v3 v4 v5 b : Int) :
    resolve_base [(1, v1), (2, v2), (3, v3), (4, v4), (5, v5)] b = v1 ∨
    resolve_base [(1, v1), (2, v2), (3, v3), (4, v4), (5, v5)] b = v2 ∨
    resolve_base [(1, v1), (2, v2), (3, v3), (4, v4), (5, v5)] b = v3 ∨
    resolve_base [(1, v1), (2, v2), (3, v3), (4, v4), (5, v5)] b = v4 ∨
    resolve_base [(1, v1), (2, v2), (3, v3), (4, v4), (5, v5)] b = v5 := by
  rcases lt_or_le b 1 with hb | hb
  · exact Or.inl (resolve_base_low v1 v2 v3 v4 v5 b hb)
  · rcases le_or_lt b 5 with hb2 | hb2
    · interval_cases b <;> simp [resolve_base, alookup]
    · exact Or.inr (Or.inr (Or.inr (Or.inr (resolve_base_high v1 v2 v3 v4 v5 b hb2))))

lemma firstMult_first_match (up : String) (head : List (String × Q)) (city : String)
    (factor : Q) (tail : List (String × Q))
    (hh : ∀ p ∈ head, containsStr up p.1 = false)
    (hc : containsStr up city = true) :
    firstMult up (head ++ (city, factor) :: tail) = factor := by
  induction head with
  | nil => simp [firstMult, hc]
  | cons q rest ih =>
    obtain ⟨c, f⟩ := q
    have hq : containsStr up c = false := hh (c, f) (by simp)
    simp only [List.cons_append, firstMult, hq, Bool.false_eq_true, if_false]
    exact ih (fun p hp => hh p (by simp [hp]))

lemma firstMult_default (up : String) (l : List (String × Q))
    (hl : ∀ p ∈ l, containsStr up p.1 = false) :
    firstMult up l = DEFAULT_MULTIPLIER := by
  induction l with
  | nil => rfl
  | cons q rest ih =>
    obtain ⟨c, f⟩ := q
    have hq : containsStr up c = false := hl (c, f) (by simp)
    simp only [firstMult, hq, Bool.false_eq_true, if_false]
    exact ih (fun p hp => hl p (by simp [hp]))

lemma firstMult_mem (up : String) (l : List (String × Q)) :
    firstMult up l ∈ DEFAULT_MULTIPLIER :: l.map Prod.snd := by
  induction l with
  | nil => simp [firstMult]
  | cons q rest ih =>
    obtain ⟨c, f⟩ := q
    by_cases hc : containsStr up c = true
    · simp [firstMult, hc]
    · have hq : containsStr up c = false := by
        cases hcv : containsStr up c
        · rfl
        · exact absurd hcv hc
      simp only [firstMult, hq, Bool.false_eq_true, if_false]
      simp only [List.mem_cons, List.map_cons] at ih ⊢
      tauto

lemma fetch_eq_of_lookup (addr pt : String) (b : Int) (m : List (Int × Int))
    (h : slookup (canonType pt) BASE_RATE_MAP = some m) :
    fetch_average_nightly_rate addr pt b =
      some (roundHalfEven ((resolve_base m b : Q) * firstMult (pyUpper addr) CITY_MULTIPLIERS)) := by
  have hm := base_map_cases _ _ h
  unfold fetch_average_nightly_rate
  rw [h]
  rcases hm with rfl | rfl | rfl | rfl <;> simp

/-! ## Claims -/

/-- C2: for every integer nightly rate and every rent, `calculate_profits`
returns exactly the three entries keyed "50", "70", "100" in that order,
each `nightlyRate * 30 * occupancy - rent - 600` rounded to two decimals
for occupancy 0.5, 0.7, 1.0; with no error condition and negative profits
allowed, e.g. nightly_rate 100 and rent 1000 give -100 / 500 / 1400. -/
theorem claim2_profit_formula :
    (∀ (nightly_rate : Int) (rent : Q),
      calculate_profits nightly_rate rent =
        [("50", round2 ((nightly_rate : Q) * 30 * 0.5 - rent - 600)),
         ("70", round2 ((nightly_rate : Q) * 30 * 0.7 - rent - 600)),
         ("100", round2 ((nightly_rate : Q) * 30 * 1.0 - rent - 600))]) ∧
    calculate_profits 100 1000 = [("50", -100), ("70", 500), ("100", 1400)] := by
  constructor
  · intro r rent
    have k1 : intToStr (qfloor ((0.5 : Q) * 100)) = "50" := by decide
    have k2 : intToStr (qfloor ((0.7 : Q) * 100)) = "70" := by decide
    have k3 : intToStr (qfloor ((1.0 : Q) * 100)) = "100" := by decide
    simp [calculate_profits, k1, k2, k3]
  · decide

/-- C3: for every recognized property type, bedroom lookup uses
nearest-lower-key resolution: an exact key's rate is used; above the
maximum configured key (5) the maximum key's rate is returned; below the
minimum configured key (1) the minimum key's rate is returned. -/
theorem claim3_nearest_lower_key :
    ∀ (pt : String) (m : List (Int × Int)), slookup pt BASE_RATE_MAP = some m →
      listMax (m.map Prod.fst) = some 5 ∧
      (sortInts (m.map Prod.fst)).headD 0 = 1 ∧
      (∀ (b v : Int), alookup b m = some v → resolve_base m b = v) ∧
      (∀ b : Int, 5 < b → resolve_base m b = (alookup 5 m).getD 0) ∧
      (∀ b : Int, b < 1 → resolve_base m b = (alookup 1 m).getD 0) := by
  intro pt m h
  rcases base_map_cases pt m h with rfl | rfl | rfl | rfl <;>
    exact ⟨by decide, by decide,
      fun b v hv => resolve_base_exact _ b v hv,
      fun b hb => (resolve_base_high _ _ _ _ _ b hb).trans (by decide),
      fun b hb => (resolve_base_low _ _ _ _ _ b hb).trans (by decide)⟩

/-- Witness for C3 at concrete inputs: bedrooms 9 (above the max key),
0 (below the min key) and 3 (exact key). -/
theorem claim3_witness :
    resolve_base [(1, 60), (2, 85), (3, 110), (4, 140), (5, 170)] 9 = 170 ∧
    resolve_base [(1, 45), (2, 65), (3, 85), (4, 105), (5, 125)] 0 = 45 ∧
    resolve_base [(1, 60), (2, 85), (3, 110), (4, 140), (5, 170)] 3 = 110 := by
  refine ⟨?_, ?_, ?_⟩
  · exact ((claim3_nearest_lower_key "house" [(1, 60), (2, 85), (3, 110), (4, 140), (5, 170)]
      (by decide)).2.2.2.1 9 (by decide)).trans (by decide)
  · exact ((claim3_nearest_lower_key "studio" [(1, 45), (2, 65), (3, 85), (4, 105), (5, 125)]
      (by decide)).2.2.2.2 0 (by decide)).trans (by decide)
  · exact (claim3_nearest_lower_key "house" [(1, 60), (2, 85), (3, 110), (4, 140), (5, 170)]
      (by decide)).2.2.1 3 110 (by decide)

/-- C4: the first configured city table entry occurring as a substring of
the uppercased address wins; multiplier 1.0 applies when no city matches;
the final rate is `round(base_rate * multiplier)`; and any address
containing "london" in any case with a 2-bed house (base rate 85) yields
nightly rate 136. -/
theorem claim4_city_multiplier :
    (∀ (addr : String) (head : List (String × Q)) (city : String) (factor : Q)
       (tail : List (String × Q)),
       CITY_MULTIPLIERS = head ++ (city, factor) :: tail →
       (∀ p ∈ head, containsStr (pyUpper addr) p.1 = false) →
       containsStr (pyUpper addr) city = true →
       firstMult (pyUpper addr) CITY_MULTIPLIERS = factor) ∧
    (∀ addr : String, (∀ p ∈ CITY_MULTIPLIERS, containsStr (pyUpper addr) p.1 = false) →
       firstMult (pyUpper addr) CITY_MULTIPLIERS = 1) ∧
    (∀ (addr pt : String) (b : Int) (m : List (Int × Int)),
       slookup (canonType pt) BASE_RATE_MAP = some m →
       fetch_average_nightly_rate addr pt b =
         some (roundHalfEven ((resolve_base m b : Q) * firstMult (pyUpper addr) CITY_MULTIPLIERS))) ∧
    (∀ addr : String, containsStr (pyUpper addr) "LONDON" = true →
       fetch_average_nightly_rate addr "house" 2 = some 136) := by
  refine ⟨?_, ?_, ?_, ?_⟩
  · intro addr head city factor tail he hh hc
    rw [he]
    exact firstMult_first_match _ _ _ _ _ hh hc
  · intro addr h
    exact (firstMult_default _ _ h).trans (by decide)
  · intro addr pt b m h
    exact fetch_eq_of_lookup addr pt b m h
  · intro addr h
    have hm : slookup (canonType "house") BASE_RATE_MAP =
        some [(1, 60), (2, 85), (3, 110), (4, 140), (5, 170)] := by decide
    rw [fetch_eq_of_lookup addr "house" 2 _ hm]
    have hr : resolve_base [(1, 60), (2, 85), (3, 110), (4, 140), (5, 170)] 2 = 85 := by decide
    rw [hr]
    have hl : firstMult (pyUpper addr) CITY_MULTIPLIERS = (1.6 : Q) := by
      have hfm := firstMult_first_match (pyUpper addr) [] "LONDON" (1.6 : Q)
        [("MANCHESTER", 1.3), ("LIVERPOOL", 1.2), ("BIRMINGHAM", 1.2), ("LEEDS", 1.1),
         ("GLASGOW", 1.1), ("EDINBURGH", 1.3), ("BRISTOL", 1.2), ("CARDIFF", 1.1),
         ("SHEFFIELD", 1.0)] (by simp) h
      simpa [CITY_MULTIPLIERS] using hfm
    rw [hl]
    decide

/-- Witness for C4: a lowercase-london address estimates at 136, and an
address matching no configured city gets multiplier 1. -/
theorem claim4_witness :
    fetch_average_nightly_rate "Flat 2, 10 Downing St, central london" "house" 2 = some 136 ∧
    firstMult (pyUpper "1 High Street, Smalltown") CITY_MULTIPLIERS = 1 := by
  constructor
  · exact claim4_city_multiplier.2.2.2 "Flat 2, 10 Downing St, central london" (by decide)
  · exact claim4_city_multiplier.2.1 "1 High Street, Smalltown" (by decide)

lemma rate_pos_table :
    ∀ bv ∈ [(60 : Int), 85, 110, 140, 170, 55, 75, 100, 125, 150, 50, 70, 95, 120, 145, 45, 65, 105],
      ∀ mv ∈ DEFAULT_MULTIPLIER :: CITY_MULTIPLIERS.map Prod.snd,
        0 < roundHalfEven ((bv : Q) * mv) := by decide

lemma resolve_base_in_table (pt : String) (m : List (Int × Int))
    (h : slookup pt BASE_RATE_MAP = some m) (b : Int) :
    resolve_base m b ∈
      [(60 : Int), 85, 110, 140, 170, 55, 75, 100, 125, 150, 50, 70, 95, 120, 145, 45, 65, 105] := by
  rcases base_map_cases pt m h with rfl | rfl | rfl | rfl
  · rcases resolve_base_vals 60 85 110 140 170 b with h1 | h1 | h1 | h1 | h1 <;> rw [h1] <;> decide
  · rcases resolve_base_vals 55 75 100 125 150 b with h1 | h1 | h1 | h1 | h1 <;> rw [h1] <;> decide
  · rcases resolve_base_vals 50 70 95 120 145 b with h1 | h1 | h1 | h1 | h1 <;> rw [h1] <;> decide
  · rcases resolve_base_vals 45 65 85 105 125 b with h1 | h1 | h1 | h1 | h1 <;> rw [h1] <;> decide

/-- C9: every nightly-rate estimate the heuristic can produce over the
configured tables, and every legacy-table rate, is strictly positive. -/
theorem claim9_positive_rates :
    (∀ (addr pt : String) (b r : Int),
       fetch_average_nightly_rate addr pt b = some r → 0 < r) ∧
    (∀ (k : String) (r : Int), slookup k LEGACY_NIGHTLY_RATE_MAP = some r → 0 < r) := by
  constructor
  · intro addr pt b r h
    cases hm : slookup (canonType pt) BASE_RATE_MAP with
    | none =>
      unfold fetch_average_nightly_rate at h
      rw [hm] at h
      cases h
    | some m =>
      rw [fetch_eq_of_lookup addr pt b m hm] at h
      have heq := Option.some.inj h
      subst heq
      exact rate_pos_table _ (resolve_base_in_table _ m hm b) _ (firstMult_mem _ _)
  · intro k r h
    simp only [LEGACY_NIGHTLY_RATE_MAP, slookup] at h
    split_ifs at h <;> simp_all <;> omega

/-- Witness for C9: the heuristic at studio/1-bed with no city match
yields 45, and the legacy entry "L4-3" yields 130; both positive. -/
theorem claim9_witness : (0 : Int) < 45 ∧ (0 : Int) < 130 := by
  constructor
  · exact claim9_positive_rates.1 "" "studio" 1 45 (by decide)
  · exact claim9_positive_rates.2 "L4-3" 130 (by decide)

/-- C10: whenever the canonicalized property type is a key of the base
rate table the heuristic returns a rate for every address and bedroom
count; hence the legacy fallback is reachable only for unrecognized
property types. -/
theorem claim10_recognized_total :
    (∀ (addr pt : String) (b : Int),
       (slookup (canonType pt) BASE_RATE_MAP).isSome = true →
       (fetch_average_nightly_rate addr pt b).isSome = true) ∧
    (∀ (addr pt : String) (b : Int),
       fetch_average_nightly_rate addr pt b = none →
       slookup (canonType pt) BASE_RATE_MAP = none) := by
  have main : ∀ (addr pt : String) (b : Int) (m : List (Int × Int)),
      slookup (canonType pt) BASE_RATE_MAP = some m →
      (fetch_average_nightly_rate addr pt b).isSome = true := by
    intro addr pt b m hm
    rw [fetch_eq_of_lookup addr pt b m hm]
    rfl
  constructor
  · intro addr pt b h
    rcases Option.isSome_iff_exists.mp h with ⟨m, hm⟩
    exact main addr pt b m hm
  · intro addr pt b h
    cases hm : slookup (canonType pt) BASE_RATE_MAP with
    | none => rfl
    | some m =>
      have hs := main addr pt b m hm
      rw [h] at hs
      simp at hs

/-- Witness for C10: a padded upper-case "  HOUSE  " canonicalizes to a
recognized key, so the estimate exists even for bedrooms -7. -/
theorem claim10_witness :
    (fetch_average_nightly_rate "anywhere" "  HOUSE  " (-7)).isSome = true := by
  exact claim10_recognized_total.1 "anywhere" "  HOUSE  " (-7) (by decide)

/-- C6: rent parsing strips every character that is not a digit or a dot,
errors exactly on an empty remainder or an invalid decimal (multiple dots
or no digit), and otherwise returns the remainder's decimal value;
"£1,200 pcm" and "1200" parse to 1200 and "£" alone is a parse error. -/
theorem claim6_rent_parsing :
    (∀ s : String, stripNonNumeric s = [] →
       parse_rent s = .error ("Could not parse rent from price string '" ++ s ++ "'")) ∧
    (∀ s : String, stripNonNumeric s ≠ [] →
       (1 < dotCount (stripNonNumeric s) ∨ hasDigit (stripNonNumeric s) = false) →
       parse_rent s = .error ("Invalid numeric value in price string '" ++ s ++ "'")) ∧
    (∀ s : String, dotCount (stripNonNumeric s) ≤ 1 → hasDigit (stripNonNumeric s) = true →
       parse_rent s = .ok
         ((digitsVal ((stripNonNumeric s).takeWhile (fun c => !(c == '.'))) : Q) +
          (digitsVal (((stripNonNumeric s).dropWhile (fun c => !(c == '.'))).drop 1) : Q) /
            (10 : Q) ^ (((stripNonNumeric s).dropWhile (fun c => !(c == '.'))).drop 1).length)) ∧
    parse_rent "£1,200 pcm" = .ok 1200 ∧
    parse_rent "1200" = .ok 1200 ∧
    parse_rent "£" = .error ("Could not parse rent from price string '£'") := by
  refine ⟨?_, ?_, ?_, by decide, by decide, by decide⟩
  · intro s h
    simp [parse_rent, h]
  · intro s h1 h2
    have he : (stripNonNumeric s).isEmpty = false := by
      cases hsn : stripNonNumeric s
      · exact absurd hsn h1
      · rfl
    have hcond : ¬(dotCount (stripNonNumeric s) ≤ 1 ∧ hasDigit (stripNonNumeric s) = true) := by
      rcases h2 with h2 | h2
      · intro hc
        omega
      · intro hc
        rw [h2] at hc
        exact Bool.false_ne_true hc.2
    simp [parse_rent, he, pyFloatOfCleaned, hcond]
  · intro s h1 h2
    have hne : stripNonNumeric s ≠ [] := by
      intro e
      rw [e] at h2
      exact absurd h2 (by decide)
    have he : (stripNonNumeric s).isEmpty = false := by
      cases hsn : stripNonNumeric s
      · exact absurd hsn hne
      · rfl
    simp [parse_rent, he, pyFloatOfCleaned, h1, h2]

/-- Witness for C6 at concrete strings: "£" (empty remainder), "1.2.3"
(two dots) and "£12.50 pcm" (valid decimal). -/
theorem claim6_witness :
    parse_rent "£" = .error ("Could not parse rent from price string '£'") ∧
    parse_rent "1.2.3" = .error ("Invalid numeric value in price string '1.2.3'") ∧
    parse_rent "£12.50 pcm" = .ok (qmk 25 2) := by
  refine ⟨?_, ?_, ?_⟩
  · exact claim6_rent_parsing.1 "£" (by decide)
  · exact claim6_rent_parsing.2.1 "1.2.3" (by decide) (Or.inl (by decide))
  · exact (claim6_rent_parsing.2.2.1 "£12.50 pcm" (by decide) (by decide)).trans (by decide)

lemma validField_spec (v : Option JVal) (h : validField v = true) :
    ∃ s, pyGet v = some (JVal.jstr s) ∧ s ≠ "" := by
  unfold validField at h
  cases hx : pyGet v with
  | none => rw [hx] at h; cases h
  | some w =>
    cases w with
    | jstr s =>
      rw [hx] at h
      simp at h
      exact ⟨s, rfl, h⟩
    | jint n => rw [hx] at h; cases h
    | jnull => rw [hx] at h; cases h

lemma endpoint_unfold (req : Req) (a p : String) (bv : JVal) (b : Int) (rent : Q) (pt : String)
    (h1 : pyGet req.address = some (JVal.jstr a)) (h2 : a ≠ "")
    (h3 : pyGet req.price = some (JVal.jstr p)) (h4 : p ≠ "")
    (h5 : pyGet req.bedrooms = some bv) (h6 : pyInt bv = some b)
    (h7 : parse_rent p = .ok rent)
    (h8 : pyStrOrEmpty (req.property_type.getD (JVal.jstr "house")) = some pt) :
    calculate_endpoint req =
      match fetch_average_nightly_rate a pt b with
      | some r => some (.success r (calculate_profits r rent)
          (format_whatsapp_message a b rent (calculate_profits r rent)))
      | none =>
        match legacy_lookup a b with
        | some r => some (.success r (calculate_profits r rent)
            (format_whatsapp_message a b rent (calculate_profits r rent)))
        | none => some (.notFound NOT_FOUND_MSG) := by
  simp [calculate_endpoint, h1, h2, h3, h4, h5, h6, h7, h8]

lemma fetch_yurt_none (addr : String) (b : Int) :
    fetch_average_nightly_rate addr "yurt" b = none := by
  have h : slookup (canonType "yurt") BASE_RATE_MAP = none := by decide
  unfold fetch_average_nightly_rate
  rw [h]

/-- C1: the end-to-end scenario address "45 Smith St, Liverpool L4 3XY",
price "£900 pcm", 3-bed house succeeds with nightly rate 132 (base 110
times the Liverpool multiplier 1.2), the fixed-formula profits from rent
900 at occupancies 50/70/100, and a message containing the address,
"3 Bed", and the three profit lines in ascending occupancy order. -/
theorem claim1_end_to_end :
    ∃ msg,
      calculate_endpoint ⟨some (.jstr "45 Smith St, Liverpool L4 3XY"),
          some (.jstr "£900 pcm"), some (.jint 3), some (.jstr "house")⟩ =
        some (.success 132 [("50", 480), ("70", 1272), ("100", 2460)] msg) ∧
      msg = "45 Smith St, Liverpool L4 3XY, 3 Bed\n\nRent + Bills = £1500.00\n\n| Conservative Figures |\n£480.00 PPM @ 50%\n£1272.00 PPM @ 70%\n£2460.00 PPM @ 100%" ∧
      containsStr msg "45 Smith St, Liverpool L4 3XY" = true ∧
      containsStr msg "3 Bed" = true ∧
      ∃ x1 x2 x3 x4, msg =
        x1 ++ "£480.00 PPM @ 50%" ++ x2 ++ "£1272.00 PPM @ 70%" ++ x3 ++
          "£2460.00 PPM @ 100%" ++ x4 := by
  refine ⟨"45 Smith St, Liverpool L4 3XY, 3 Bed\n\nRent + Bills = £1500.00\n\n| Conservative Figures |\n£480.00 PPM @ 50%\n£1272.00 PPM @ 70%\n£2460.00 PPM @ 100%",
    by decide, rfl, by decide, by decide,
    "45 Smith St, Liverpool L4 3XY, 3 Bed\n\nRent + Bills = £1500.00\n\n| Conservative Figures |\n",
    "\n", "\n", "", by decide⟩

/-- C5: when the heuristic yields absence the endpoint falls back to the
first postcode prefix and the legacy table keyed "<prefix>-<bedrooms>";
an unrecognized type "yurt" with first prefix "L4" and 3 bedrooms yields
nightly rate 130 via the legacy table, never via the primary path. -/
theorem claim5_legacy_fallback :
    (∀ (addr : String) (b : Int), fetch_average_nightly_rate addr "yurt" b = none) ∧
    (∀ (req : Req) (a p : String) (bv : JVal) (b : Int) (rent : Q) (pt : String) (r : Int),
       pyGet req.address = some (.jstr a) → a ≠ "" →
       pyGet req.price = some (.jstr p) → p ≠ "" →
       pyGet req.bedrooms = some bv → pyInt bv = some b →
       parse_rent p = .ok rent →
       pyStrOrEmpty (req.property_type.getD (JVal.jstr "house")) = some pt →
       fetch_average_nightly_rate a pt b = none →
       legacy_lookup a b = some r →
       calculate_endpoint req = some (.success r (calculate_profits r rent)
         (format_whatsapp_message a b rent (calculate_profits r rent)))) ∧
    (∀ (addr p : String) (rent : Q),
       addr ≠ "" → p ≠ "" → parse_rent p = .ok rent → extractPrefix addr = some "L4" →
       calculate_endpoint ⟨some (.jstr addr), some (.jstr p), some (.jint 3),
           some (.jstr "yurt")⟩ =
         some (.success 130 (calculate_profits 130 rent)
           (format_whatsapp_message addr 3 rent (calculate_profits 130 rent)))) := by
  refine ⟨fetch_yurt_none, ?_, ?_⟩
  · intro req a p bv b rent pt r h1 h2 h3 h4 h5 h6 h7 h8 hfetch hleg
    rw [endpoint_unfold req a p bv b rent pt h1 h2 h3 h4 h5 h6 h7 h8, hfetch, hleg]
  · intro addr p rent ha hp hr hpfx
    have hleg : legacy_lookup addr 3 = some 130 := by
      unfold legacy_lookup
      rw [hpfx]
      decide
    rw [endpoint_unfold ⟨some (.jstr addr), some (.jstr p), some (.jint 3), some (.jstr "yurt")⟩
      addr p (.jint 3) 3 rent "yurt" rfl ha rfl hp rfl rfl hr rfl, fetch_yurt_none, hleg]

/-- Witness for C5: the yurt request at "45 Smith St, Liverpool L4 3XY"
with price "£900 pcm" resolves to 130 through the legacy table. -/
theorem claim5_witness :
    calculate_endpoint ⟨some (.jstr "45 Smith St, Liverpool L4 3XY"),
        some (.jstr "£900 pcm"), some (.jint 3), some (.jstr "yurt")⟩ =
      some (.success 130 (calculate_profits 130 900)
        (format_whatsapp_message "45 Smith St, Liverpool L4 3XY" 3 900
          (calculate_profits 130 900))) := by
  exact claim5_legacy_fallback.2.2 "45 Smith St, Liverpool L4 3XY" "£900 pcm" 900
    (by decide) (by decide) (by decide) (by decide)

/-- C7: validation short-circuits in the fixed order address, price,
bedrooms, each failing check producing the client error naming its field,
and an absent property_type behaves exactly as "house". -/
theorem claim7_validation_order :
    (∀ req : Req, validField req.address = false →
       calculate_endpoint req = some (.clientError "Invalid or missing 'address'.")) ∧
    (∀ req : Req, validField req.address = true → validField req.price = false →
       calculate_endpoint req = some (.clientError "Invalid or missing 'price'.")) ∧
    (∀ req : Req, validField req.address = true → validField req.price = true →
       pyGet req.bedrooms = none →
       calculate_endpoint req = some (.clientError "Missing 'bedrooms'.")) ∧
    (∀ (req : Req) (bv : JVal), validField req.address = true → validField req.price = true →
       pyGet req.bedrooms = some bv → pyInt bv = none →
       calculate_endpoint req = some (.clientError "'bedrooms' must be an integer.")) ∧
    (∀ req : Req, req.property_type = none →
       calculate_endpoint req =
         calculate_endpoint { req with property_type := some (JVal.jstr "house") }) := by
  refine ⟨?_, ?_, ?_, ?_, ?_⟩
  · intro req h
    unfold calculate_endpoint
    cases hx : pyGet req.address with
    | none => rfl
    | some v =>
      cases v with
      | jstr s =>
        have hs : s = "" := by
          unfold validField at h
          rw [hx] at h
          simpa using h
        simp [hs]
      | jint n => rfl
      | jnull => rfl
  · intro req h1 h2
    obtain ⟨a, ha, hane⟩ := validField_spec _ h1
    unfold calculate_endpoint
    rw [ha]
    cases hx : pyGet req.price with
    | none => simp [hane]
    | some v =>
      cases v with
      | jstr s =>
        have hs : s = "" := by
          unfold validField at h2
          rw [hx] at h2
          simpa using h2
        simp [hane, hs]
      | jint n => simp [hane]
      | jnull => simp [hane]
  · intro req h1 h2 hb
    obtain ⟨a, ha, hane⟩ := validField_spec _ h1
    obtain ⟨p, hp, hpne⟩ := validField_spec _ h2
    simp [calculate_endpoint, ha, hane, hp, hpne, hb]
  · intro req bv h1 h2 hb hint
    obtain ⟨a, ha, hane⟩ := validField_spec _ h1
    obtain ⟨p, hp, hpne⟩ := validField_spec _ h2
    simp [calculate_endpoint, ha, hane, hp, hpne, hb, hint]
  · intro req h
    obtain ⟨ad, pr, bd, pty⟩ := req
    simp only at h
    subst h
    rfl

/-- Witness for C7: concrete requests tripping each validation stage, and
a request with no property_type equal to the same request with "house". -/
theorem claim7_witness :
    calculate_endpoint ⟨none, some (.jstr "£900"), some (.jint 3), none⟩ =
      some (.clientError "Invalid or missing 'address'.") ∧
    calculate_endpoint ⟨some (.jstr "1 Main St"), some (.jint 900), some (.jint 3), none⟩ =
      some (.clientError "Invalid or missing 'price'.") ∧
    calculate_endpoint ⟨some (.jstr "1 Main St"), some (.jstr "£900"), none, none⟩ =
      some (.clientError "Missing 'bedrooms'.") ∧
    calculate_endpoint ⟨some (.jstr "1 Main St"), some (.jstr "£900"), some (.jstr "three"), none⟩ =
      some (.clientError "'bedrooms' must be an integer.") ∧
    calculate_endpoint ⟨some (.jstr "1 Main St"), some (.jstr "£900"), some (.jint 3), none⟩ =
      calculate_endpoint ⟨some (.jstr "1 Main St"), some (.jstr "£900"), some (.jint 3),
        some (.jstr "house")⟩ := by
  refine ⟨?_, ?_, ?_, ?_, ?_⟩
  · exact claim7_validation_order.1 _ (by decide)
  · exact claim7_validation_order.2.1 _ (by decide) (by decide)
  · exact claim7_validation_order.2.2.1 _ (by decide) (by decide) (by decide)
  · exact claim7_validation_order.2.2.2.1 _ (.jstr "three") (by decide) (by decide) rfl (by decide)
  · exact claim7_validation_order.2.2.2.2 _ rfl

/-- C8: when both the heuristic and the legacy fallback yield absence the
endpoint returns the 404 not-found outcome, never a numeric rate, with a
message listing the recognized property types; 404 is distinct from the
400 client-error class. -/
theorem claim8_not_found :
    (∀ (req : Req) (a p : String) (bv : JVal) (b : Int) (rent : Q) (pt : String),
       pyGet req.address = some (.jstr a) → a ≠ "" →
       pyGet req.price = some (.jstr p) → p ≠ "" →
       pyGet req.bedrooms = some bv → pyInt bv = some b →
       parse_rent p = .ok rent →
       pyStrOrEmpty (req.property_type.getD (JVal.jstr "house")) = some pt →
       fetch_average_nightly_rate a pt b = none →
       legacy_lookup a b = none →
       calculate_endpoint req = some (.notFound NOT_FOUND_MSG)) ∧
    containsStr NOT_FOUND_MSG "apartment, bungalow, house, studio" = true ∧
    statusCode (.notFound NOT_FOUND_MSG) = 404 ∧
    (∀ m, statusCode (.clientError m) = 400) ∧
    (∀ (r : Int) (pf : List (String × Q)) (m : String),
       Response.notFound NOT_FOUND_MSG ≠ .success r pf m) := by
  refine ⟨?_, by decide, rfl, fun m => rfl, fun r pf m h => Response.noConfusion h⟩
  intro req a p bv b rent pt h1 h2 h3 h4 h5 h6 h7 h8 hfetch hleg
  rw [endpoint_unfold req a p bv b rent pt h1 h2 h3 h4 h5 h6 h7 h8, hfetch, hleg]

/-- Witness for C8: an unrecognized type and an address with no postcode
prefix produce the 404 outcome. -/
theorem claim8_witness :
    calculate_endpoint ⟨some (.jstr "No Postcode Here"), some (.jstr "£500 pcm"),
        some (.jint 2), some (.jstr "yurt")⟩ = some (.notFound NOT_FOUND_MSG) := by
  exact claim8_not_found.1 ⟨some (.jstr "No Postcode Here"), some (.jstr "£500 pcm"),
      some (.jint 2), some (.jstr "yurt")⟩ "No Postcode Here" "£500 pcm" (.jint 2) 2 500 "yurt"
    rfl (by decide) rfl (by decide) rfl rfl (by decide) rfl (by decide) (by decide)

end RentToSA
